import Mathlib

/-!
# TPM interaction layer of GRUB on EFI (grub-core/kern/efi/tpm.c)

A shallow embedding of `grub_tpm_handle_find`, `grub_tpm_present`,
`grub_tpm2_present`, `grub_tpm_execute` and `grub_tpm_log_event`.

The firmware and the allocator are an explicit `Platform` value; every call
the C code makes to them is appended to a trace (`List Ev`), so that the
number and the arguments of hardware calls, allocations and releases can be
stated. Machine integers are `Nat`, reduced modulo `2 ^ 32` where the C
code stores or computes in `grub_uint32_t`.
-/

namespace GrubTpm

/-! ## Declarations the C file takes from headers -/

/-- Error numbers of `grub_err_t` that tpm.c returns. -/
inductive grub_err_t
  | GRUB_ERR_NONE
  | GRUB_ERR_OUT_OF_MEMORY
  | GRUB_ERR_UNKNOWN_DEVICE
  | GRUB_ERR_BAD_ARGUMENT
  | GRUB_ERR_IO
  deriving DecidableEq, Repr

open grub_err_t

/-- Constants that tpm.c reads from headers which are not part of the sources
at hand: the five EFI status codes its `switch` statements name and the
`sizeof` values of the parameter blocks and of the TCG2 event structures.
They are parameters of the embedding. -/
structure Headers where
  GRUB_EFI_SUCCESS : Nat
  GRUB_EFI_DEVICE_ERROR : Nat
  GRUB_EFI_INVALID_PARAMETER : Nat
  GRUB_EFI_BUFFER_TOO_SMALL : Nat
  GRUB_EFI_NOT_FOUND : Nat
  /-- Value of `sizeof(*inbuf)`. -/
  sizeof_inbuf : Nat
  /-- Value of `sizeof(inbuf->TPMOperandIn)`. -/
  sizeof_TPMOperandIn : Nat
  /-- Value of `sizeof(*outbuf)`. -/
  sizeof_outbuf : Nat
  /-- Value of `sizeof(outbuf->TPMOperandOut)`. -/
  sizeof_TPMOperandOut : Nat
  sizeof_EFI_TCG2_EVENT_HEADER : Nat
  /-- Value of `sizeof(*event2)`, the whole `EFI_TCG2_EVENT`. -/
  sizeof_EFI_TCG2_EVENT : Nat
  /-- Value of `sizeof(event2->Event)`, the payload placeholder. -/
  sizeof_event2_Event : Nat

/-- The five status codes are pairwise different (they are the `case` labels
of one `switch`, which C requires to be distinct). -/
def Headers.status_distinct (K : Headers) : Prop :=
  [K.GRUB_EFI_SUCCESS, K.GRUB_EFI_DEVICE_ERROR, K.GRUB_EFI_INVALID_PARAMETER,
   K.GRUB_EFI_BUFFER_TOO_SMALL, K.GRUB_EFI_NOT_FOUND].Nodup

instance (K : Headers) : Decidable K.status_distinct := by
  unfold Headers.status_distinct; infer_instance

/-- One assignment of the header constants: the values of a 64-bit EFI build
(status codes with the top bit of a 64-bit word set for errors, packed
parameter blocks of 8 + 1 and 4 + 1 bytes, a packed 14-byte TCG2 event header
inside a 4 + 14 + 1 byte event). Used for concrete evaluations only. -/
def efi64_headers : Headers where
  GRUB_EFI_SUCCESS := 0
  GRUB_EFI_DEVICE_ERROR := 2 ^ 63 + 7
  GRUB_EFI_INVALID_PARAMETER := 2 ^ 63 + 2
  GRUB_EFI_BUFFER_TOO_SMALL := 2 ^ 63 + 5
  GRUB_EFI_NOT_FOUND := 2 ^ 63 + 14
  sizeof_inbuf := 9
  sizeof_TPMOperandIn := 1
  sizeof_outbuf := 5
  sizeof_TPMOperandOut := 1
  sizeof_EFI_TCG2_EVENT_HEADER := 14
  sizeof_EFI_TCG2_EVENT := 19
  sizeof_event2_Event := 1

/-- Subtraction of two `grub_uint32_t` values: the result wraps modulo 2^32. -/
def u32_sub (a b : Nat) : Nat := (a % 2 ^ 32 + 2 ^ 32 - b % 2 ^ 32) % 2 ^ 32

/-- The two protocol identifiers `tpm_guid` and `tpm2_guid`. -/
inductive Guid
  | tpm_guid
  | tpm2_guid
  deriving DecidableEq, Repr

/-! ## Data -/

/-- The caller's input block: only the fields tpm.c reads. -/
structure PassThroughToTPM_InputParamBlock where
  IPBLength : Nat
  TPMOperandIn : List Nat
  deriving DecidableEq, Repr

/-- The caller's output block: only the fields tpm.c reads. -/
structure PassThroughToTPM_OutputParamBlock where
  OPBLength : Nat
  TPMOperandOut : List Nat
  deriving DecidableEq, Repr

/-- Capability flags read by `grub_tpm_present`. -/
structure TCG_EFI_BOOT_SERVICE_CAPABILITY where
  TPMPresentFlag : Nat
  TPMDeactivatedFlag : Nat
  deriving DecidableEq, Repr

/-- Capability flag read by `grub_tpm2_present`. -/
structure EFI_TCG2_BOOT_SERVICE_CAPABILITY where
  TPMPresentFlag : Nat
  deriving DecidableEq, Repr

/-- The V1 record `Event` of tpm.c (lines 146-152); `event` is the byte region
that starts at the member `event[1]` and runs to the end of the allocation. -/
structure Event where
  pcrindex : Nat
  eventtype : Nat
  digest : List Nat
  eventsize : Nat
  event : List Nat
  deriving DecidableEq, Repr

/-- Value of `sizeof (Event)`: four-byte members at offsets 0, 4 and 28, the
digest at 8..27, `event[1]` at 32, rounded up to the four-byte alignment. -/
def sizeof_Event : Nat := 36

/-- Offset of the member `event` in `Event`, the size of the fixed header. -/
def offsetof_Event_event : Nat := 32

/-- Header of the V2 record. -/
structure EFI_TCG2_EVENT_HEADER where
  HeaderSize : Nat
  HeaderVersion : Nat
  PCRIndex : Nat
  EventType : Nat
  deriving DecidableEq, Repr

/-- The V2 record; `Event` is the byte region from the member `Event` to the
end of the allocation. -/
structure EFI_TCG2_EVENT where
  Size : Nat
  Header : EFI_TCG2_EVENT_HEADER
  Event : List Nat
  deriving DecidableEq, Repr

/-- Buffers a call can acquire. -/
inductive Buf
  | handles (g : Guid)
  | event_record
  deriving DecidableEq, Repr

/-- Calls that leave tpm.c, in the order they are made. -/
inductive Ev
  | grub_efi_locate_handle (g : Guid) (result : Option (List Nat))
  | grub_efi_open_protocol (handle : Nat) (g : Guid)
  | status_check (tpm : Nat)
  | get_capability (tpm2 : Nat)
  | grub_zalloc (n : Nat) (ok : Bool)
  | grub_printf (s : String)
  | grub_free (b : Buf)
  | pass_through_to_tpm (tpm inlen : Nat) (operand_in : List Nat) (outlen : Nat)
      (operand_out : List Nat)
  | submit_command (tpm2 inlen : Nat) (operand_in : List Nat) (outlen : Nat)
      (operand_out : List Nat)
  | log_extend_event (tpm : Nat) (buf : List Nat) (size : Nat) (algorithm : Nat)
      (event : Event)
  | hash_log_extend_event (tpm2 flags : Nat) (buf : List Nat) (size : Nat)
      (event2 : EFI_TCG2_EVENT)
  deriving DecidableEq, Repr

/-- The firmware tables and the allocator, as seen during one call. A handle
is a number and stands for the protocol interface that
`grub_efi_open_protocol` returns for it (tpm.c uses that result unchecked).
`locate_handle g` is `none` for a NULL result and `some hs` for an array of
`hs.length` handles. Each entry point returns its EFI status; the data it
writes back (capability flags apart) is not read by tpm.c. -/
structure Platform where
  locate_handle : Guid → Option (List Nat)
  status_check : Nat → Nat × TCG_EFI_BOOT_SERVICE_CAPABILITY
  get_capability : Nat → Nat × EFI_TCG2_BOOT_SERVICE_CAPABILITY
  /-- Whether `grub_zalloc (n)` returns a buffer. -/
  zalloc_ok : Nat → Bool
  pass_through_to_tpm : Nat → Nat → List Nat → Nat → List Nat → Nat
  submit_command : Nat → Nat → List Nat → Nat → List Nat → Nat
  log_extend_event : Nat → List Nat → Nat → Nat → Event → Nat
  hash_log_extend_event : Nat → Nat → List Nat → Nat → EFI_TCG2_EVENT → Nat

/-- What a call of `grub_tpm_execute` or `grub_tpm_log_event` leaves behind:
the returned error number, the message handed to `grub_error` (if any) and
the trace of outgoing calls. -/
structure Outcome where
  ret : grub_err_t
  errmsg : Option String
  trace : List Ev
  deriving DecidableEq, Repr

/-! ## Helpers of the C library used by tpm.c -/

/-- Modelled from the spec: `grub_error` (kern/err.c is not among the sources)
records the message and returns the error number it was given. -/
def grub_error (n : grub_err_t) (fmt : String) (t : List Ev) : Outcome :=
  ⟨n, some fmt, t⟩

/-- Modelled from the spec: `grub_strlen` (kern/misc.c is not among the
sources) is the description length, the number of bytes before the first
zero byte. -/
def grub_strlen : List Nat → Nat
  | [] => 0
  | c :: cs => if c = 0 then 0 else grub_strlen cs + 1

/-- Modelled from the spec: `grub_memcpy (dst, src, n)` (kern/misc.c is not
among the sources) overwrites the first `n` bytes at `dst` with the first `n`
bytes at `src`. As in C there is no bound check: a copy longer than `dst`
yields the `n` copied bytes. -/
def grub_memcpy (dst src : List Nat) (n : Nat) : List Nat :=
  src.take n ++ dst.drop n

/-- A zero-filled `Event` laid over a fresh allocation of `n` bytes. -/
def Event.zalloc (n : Nat) : Event :=
  ⟨0, 0, List.replicate 20 0, 0, List.replicate (n - offsetof_Event_event) 0⟩

/-- A zero-filled `EFI_TCG2_EVENT` laid over a fresh allocation of `n` bytes. -/
def EFI_TCG2_EVENT.zalloc (K : Headers) (n : Nat) : EFI_TCG2_EVENT :=
  ⟨0, ⟨0, 0, 0, 0⟩,
    List.replicate (n - (K.sizeof_EFI_TCG2_EVENT - K.sizeof_event2_Event)) 0⟩

/-! ## The functions of tpm.c -/

/-- Embedding of `grub_tpm_present` (lines 13-30). The flags are tested as C
truth values (non-zero is set); when the status is not SUCCESS the flags are
not read, as in the short-circuit `||`. -/
def grub_tpm_present (K : Headers) (P : Platform) (tpm : Nat) : Bool :=
  let status := (P.status_check tpm).1
  let caps := (P.status_check tpm).2
  if status ≠ K.GRUB_EFI_SUCCESS ∨ caps.TPMDeactivatedFlag ≠ 0
      ∨ ¬ (caps.TPMPresentFlag ≠ 0) then
    false
  else
    true

/-- Embedding of `grub_tpm2_present` (lines 32-45). -/
def grub_tpm2_present (K : Headers) (P : Platform) (tpm : Nat) : Bool :=
  let status := (P.get_capability tpm).1
  let caps := (P.get_capability tpm).2
  if status ≠ K.GRUB_EFI_SUCCESS ∨ ¬ (caps.TPMPresentFlag ≠ 0) then
    false
  else
    true

/-- Embedding of `grub_tpm_handle_find` (lines 47-70): the result is `none`
for a return value of 0 and `some (tpm_handle, protocol_version)` for 1; the
second component is the trace of the directory queries. The pattern
`some (h :: _)` is `handles && num_handles > 0` with `h = handles[0]`. -/
def grub_tpm_handle_find (P : Platform) : Option (Nat × Nat) × List Ev :=
  match P.locate_handle Guid.tpm_guid with
  | some (h :: _) =>
    (some (h, 1), [Ev.grub_efi_locate_handle Guid.tpm_guid (P.locate_handle Guid.tpm_guid)])
  | _ =>
    match P.locate_handle Guid.tpm2_guid with
    | some (h :: _) =>
      (some (h, 2),
        [Ev.grub_efi_locate_handle Guid.tpm_guid (P.locate_handle Guid.tpm_guid),
         Ev.grub_efi_locate_handle Guid.tpm2_guid (P.locate_handle Guid.tpm2_guid)])
    | _ =>
      (none,
        [Ev.grub_efi_locate_handle Guid.tpm_guid (P.locate_handle Guid.tpm_guid),
         Ev.grub_efi_locate_handle Guid.tpm2_guid (P.locate_handle Guid.tpm2_guid)])

/-- Embedding of `grub_tpm_execute` (lines 72-144). -/
def grub_tpm_execute (K : Headers) (P : Platform)
    (inbuf : PassThroughToTPM_InputParamBlock)
    (outbuf : PassThroughToTPM_OutputParamBlock) : Outcome :=
  let inhdrsize := (K.sizeof_inbuf - K.sizeof_TPMOperandIn) % 2 ^ 32
  let outhdrsize := (K.sizeof_outbuf - K.sizeof_TPMOperandOut) % 2 ^ 32
  match grub_tpm_handle_find P with
  | (none, t) => ⟨GRUB_ERR_NONE, none, t⟩
  | (some (tpm_handle, protocol_version), t) =>
    if protocol_version = 1 then
      let t := t ++ [Ev.grub_efi_open_protocol tpm_handle Guid.tpm_guid,
                     Ev.status_check tpm_handle]
      if ¬ grub_tpm_present K P tpm_handle then
        ⟨GRUB_ERR_NONE, none, t⟩
      else
        let status := P.pass_through_to_tpm tpm_handle
          (u32_sub inbuf.IPBLength inhdrsize) inbuf.TPMOperandIn
          (u32_sub outbuf.OPBLength outhdrsize) outbuf.TPMOperandOut
        let t := t ++ [Ev.pass_through_to_tpm tpm_handle
          (u32_sub inbuf.IPBLength inhdrsize) inbuf.TPMOperandIn
          (u32_sub outbuf.OPBLength outhdrsize) outbuf.TPMOperandOut]
        if status = K.GRUB_EFI_SUCCESS then
          ⟨GRUB_ERR_NONE, none, t⟩
        else if status = K.GRUB_EFI_DEVICE_ERROR then
          grub_error GRUB_ERR_IO "Command failed" t
        else if status = K.GRUB_EFI_INVALID_PARAMETER then
          grub_error GRUB_ERR_BAD_ARGUMENT "Invalid parameter" t
        else if status = K.GRUB_EFI_BUFFER_TOO_SMALL then
          grub_error GRUB_ERR_BAD_ARGUMENT "Output buffer too small" t
        else if status = K.GRUB_EFI_NOT_FOUND then
          grub_error GRUB_ERR_UNKNOWN_DEVICE "TPM unavailable" t
        else
          grub_error GRUB_ERR_UNKNOWN_DEVICE "Unknown TPM error" t
    else
      let t := t ++ [Ev.grub_efi_open_protocol tpm_handle Guid.tpm2_guid,
                     Ev.get_capability tpm_handle]
      if ¬ grub_tpm2_present K P tpm_handle then
        ⟨GRUB_ERR_NONE, none, t⟩
      else
        let status := P.submit_command tpm_handle
          (u32_sub inbuf.IPBLength inhdrsize) inbuf.TPMOperandIn
          (u32_sub outbuf.OPBLength outhdrsize) outbuf.TPMOperandOut
        let t := t ++ [Ev.submit_command tpm_handle
          (u32_sub inbuf.IPBLength inhdrsize) inbuf.TPMOperandIn
          (u32_sub outbuf.OPBLength outhdrsize) outbuf.TPMOperandOut]
        if status = K.GRUB_EFI_SUCCESS then
          ⟨GRUB_ERR_NONE, none, t⟩
        else if status = K.GRUB_EFI_DEVICE_ERROR then
          grub_error GRUB_ERR_IO "Command failed" t
        else if status = K.GRUB_EFI_INVALID_PARAMETER then
          grub_error GRUB_ERR_BAD_ARGUMENT "Invalid parameter" t
        else if status = K.GRUB_EFI_BUFFER_TOO_SMALL then
          grub_error GRUB_ERR_BAD_ARGUMENT "Output buffer too small" t
        else if status = K.GRUB_EFI_NOT_FOUND then
          grub_error GRUB_ERR_UNKNOWN_DEVICE "TPM unavailable" t
        else
          grub_error GRUB_ERR_UNKNOWN_DEVICE "Unknown TPM error" t

/-- Embedding of `grub_tpm_log_event` (lines 154-251). `description` holds the
bytes of the C string before its terminator; the memory it points to is
`description ++ [0]`. `pcr` is a `grub_uint8_t`. The fields `eventsize` and
`Size` are 32 bits wide and receive a value computed from `grub_strlen`, so
they are reduced modulo 2^32; `HeaderSize` receives a compile-time constant. -/
def grub_tpm_log_event (K : Headers) (P : Platform) (buf : List Nat) (size : Nat)
    (pcr : Fin 256) (description : List Nat) : Outcome :=
  let str := description ++ [0]
  match grub_tpm_handle_find P with
  | (none, t) => ⟨GRUB_ERR_NONE, none, t⟩
  | (some (tpm_handle, protocol_version), t) =>
    if protocol_version = 1 then
      let t := t ++ [Ev.grub_efi_open_protocol tpm_handle Guid.tpm_guid,
                     Ev.status_check tpm_handle]
      if ¬ grub_tpm_present K P tpm_handle then
        ⟨GRUB_ERR_NONE, none, t⟩
      else
        let n := sizeof_Event + grub_strlen str + 1
        if ¬ P.zalloc_ok n then
          grub_error GRUB_ERR_OUT_OF_MEMORY "cannot allocate TPM event buffer"
            (t ++ [Ev.grub_zalloc n false, Ev.grub_printf "No buffer\n"])
        else
          let t := t ++ [Ev.grub_zalloc n true]
          let event := Event.zalloc n
          let event := { event with pcrindex := pcr.val }
          let event := { event with eventtype := 0x0d }
          let event := { event with eventsize := (grub_strlen str + 1) % 2 ^ 32 }
          let event := { event with event := grub_memcpy event.event str event.eventsize }
          let algorithm := 0x00000004
          let status := P.log_extend_event tpm_handle buf size algorithm event
          let t := t ++ [Ev.log_extend_event tpm_handle buf size algorithm event]
          if status = K.GRUB_EFI_SUCCESS then
            ⟨GRUB_ERR_NONE, none, t⟩
          else if status = K.GRUB_EFI_DEVICE_ERROR then
            grub_error GRUB_ERR_IO "Command failed" t
          else if status = K.GRUB_EFI_INVALID_PARAMETER then
            grub_error GRUB_ERR_BAD_ARGUMENT "Invalid parameter" t
          else if status = K.GRUB_EFI_BUFFER_TOO_SMALL then
            grub_error GRUB_ERR_BAD_ARGUMENT "Output buffer too small" t
          else if status = K.GRUB_EFI_NOT_FOUND then
            grub_error GRUB_ERR_UNKNOWN_DEVICE "TPM unavailable" t
          else
            grub_error GRUB_ERR_UNKNOWN_DEVICE "Unknown TPM error" t
    else
      let t := t ++ [Ev.grub_efi_open_protocol tpm_handle Guid.tpm2_guid,
                     Ev.get_capability tpm_handle]
      if ¬ grub_tpm2_present K P tpm_handle then
        ⟨GRUB_ERR_NONE, none, t⟩
      else
        let n := sizeof_Event + grub_strlen str + 1
        if ¬ P.zalloc_ok n then
          grub_error GRUB_ERR_OUT_OF_MEMORY "cannot allocate TPM event buffer"
            (t ++ [Ev.grub_zalloc n false, Ev.grub_printf "No buffer\n"])
        else
          let t := t ++ [Ev.grub_zalloc n true]
          let event2 := EFI_TCG2_EVENT.zalloc K n
          let event2 := { event2 with
            Header := { event2.Header with HeaderSize := K.sizeof_EFI_TCG2_EVENT_HEADER } }
          let event2 := { event2 with Header := { event2.Header with HeaderVersion := 1 } }
          let event2 := { event2 with Header := { event2.Header with PCRIndex := pcr.val } }
          let event2 := { event2 with Header := { event2.Header with EventType := 0x0d } }
          let event2 := { event2 with
            Size := (K.sizeof_EFI_TCG2_EVENT - K.sizeof_event2_Event + grub_strlen str + 1)
                      % 2 ^ 32 }
          let event2 := { event2 with
            Event := grub_memcpy event2.Event str (grub_strlen str + 1) }
          let status := P.hash_log_extend_event tpm_handle 0 buf size event2
          let t := t ++ [Ev.hash_log_extend_event tpm_handle 0 buf size event2]
          if status = K.GRUB_EFI_SUCCESS then
            ⟨GRUB_ERR_NONE, none, t⟩
          else if status = K.GRUB_EFI_DEVICE_ERROR then
            grub_error GRUB_ERR_IO "Command failed" t
          else if status = K.GRUB_EFI_INVALID_PARAMETER then
            grub_error GRUB_ERR_BAD_ARGUMENT "Invalid parameter" t
          else if status = K.GRUB_EFI_BUFFER_TOO_SMALL then
            grub_error GRUB_ERR_BAD_ARGUMENT "Output buffer too small" t
          else if status = K.GRUB_EFI_NOT_FOUND then
            grub_error GRUB_ERR_UNKNOWN_DEVICE "TPM unavailable" t
          else
            grub_error GRUB_ERR_UNKNOWN_DEVICE "Unknown TPM error" t

/-! ## Observations on a trace -/

/-- Selects the four hardware commands: `pass_through_to_tpm`,
`submit_command`, `log_extend_event` and `hash_log_extend_event`. -/
def Ev.is_command : Ev → Bool
  | .pass_through_to_tpm .. => true
  | .submit_command .. => true
  | .log_extend_event .. => true
  | .hash_log_extend_event .. => true
  | _ => false

/-- The hardware commands of a trace, in order. -/
def hw_calls (t : List Ev) : List Ev := t.filter Ev.is_command

/-- Sizes passed to `grub_zalloc`, in order. -/
def zalloc_sizes : List Ev → List Nat
  | [] => []
  | Ev.grub_zalloc n _ :: t => n :: zalloc_sizes t
  | _ :: t => zalloc_sizes t

/-- Buffers acquired in a trace: every non-NULL handle array and every
successful `grub_zalloc`. -/
def acquired : List Ev → List Buf
  | [] => []
  | Ev.grub_efi_locate_handle g (some _) :: t => Buf.handles g :: acquired t
  | Ev.grub_zalloc _ true :: t => Buf.event_record :: acquired t
  | _ :: t => acquired t

/-- Buffers released in a trace. -/
def released : List Ev → List Buf
  | [] => []
  | Ev.grub_free b :: t => b :: released t
  | _ :: t => released t

/-- Every acquired buffer has a matching release: the acquisitions are a
sub-multiset of the releases. -/
def balanced (t : List Ev) : Bool :=
  ((acquired t).diff (released t)).isEmpty

/-! ## The status table in the words of the specification -/

/-- Error kinds of the specification (section 7); the two hardware statuses
that map to a bad argument are told apart by their sub-reason. -/
inductive ErrorKind
  | Ok
  | IoFailure
  | BadArgument
  | BadArgumentOutputTooSmall
  | DeviceUnavailable
  | UnknownDeviceError
  deriving DecidableEq, Repr

/-- The Status Translator of the specification (section 4.5): SUCCESS gives
Ok, DEVICE_ERROR gives IoFailure, INVALID_PARAMETER gives BadArgument,
BUFFER_TOO_SMALL gives BadArgument (output too small), NOT_FOUND gives
DeviceUnavailable, any other code gives UnknownDeviceError. -/
def StatusTranslator (K : Headers) (s : Nat) : ErrorKind :=
  if s = K.GRUB_EFI_SUCCESS then ErrorKind.Ok
  else if s = K.GRUB_EFI_DEVICE_ERROR then ErrorKind.IoFailure
  else if s = K.GRUB_EFI_INVALID_PARAMETER then ErrorKind.BadArgument
  else if s = K.GRUB_EFI_BUFFER_TOO_SMALL then ErrorKind.BadArgumentOutputTooSmall
  else if s = K.GRUB_EFI_NOT_FOUND then ErrorKind.DeviceUnavailable
  else ErrorKind.UnknownDeviceError

/-- The error number and message that stand for an error kind. -/
def ErrorKind.as_grub : ErrorKind → grub_err_t × Option String
  | .Ok => (GRUB_ERR_NONE, none)
  | .IoFailure => ( GRUB_ERR_IO, some "Command failed")
  | .BadArgument => (GRUB_ERR_BAD_ARGUMENT, some "Invalid parameter")
  | .BadArgumentOutputTooSmall => (GRUB_ERR_BAD_ARGUMENT, some "Output buffer too small")
  | .DeviceUnavailable => (GRUB_ERR_UNKNOWN_DEVICE, some "TPM unavailable")
  | .UnknownDeviceError => (GRUB_ERR_UNKNOWN_DEVICE, some "Unknown TPM error")

/-- The header size `inhdrsize` computed at line 81. -/
def inhdrsize (K : Headers) : Nat := (K.sizeof_inbuf - K.sizeof_TPMOperandIn) % 2 ^ 32

/-- The header size `outhdrsize` computed at line 82. -/
def outhdrsize (K : Headers) : Nat := (K.sizeof_outbuf - K.sizeof_TPMOperandOut) % 2 ^ 32

/-! ## Sample platforms -/

/-- A machine without a TPM: both directory queries return NULL. -/
def no_tpm : Platform where
  locate_handle := fun _ => none
  status_check := fun _ => (0, ⟨0, 0⟩)
  get_capability := fun _ => (0, ⟨0⟩)
  zalloc_ok := fun _ => true
  pass_through_to_tpm := fun _ _ _ _ _ => 0
  submit_command := fun _ _ _ _ _ => 0
  log_extend_event := fun _ _ _ _ _ => 0
  hash_log_extend_event := fun _ _ _ _ _ => 0

/-- A machine with a V1 TPM on handle 7 (and a V2 interface on handle 9 that
the locator never reaches), present and active, whose entry points all answer
with status `s`. -/
def v1_platform (s : Nat) : Platform where
  locate_handle := fun g => match g with
    | Guid.tpm_guid => some [7, 8]
    | Guid.tpm2_guid => some [9]
  status_check := fun _ => (0, ⟨1, 0⟩)
  get_capability := fun _ => (0, ⟨1⟩)
  zalloc_ok := fun _ => true
  pass_through_to_tpm := fun _ _ _ _ _ => s
  submit_command := fun _ _ _ _ _ => s
  log_extend_event := fun _ _ _ _ _ => s
  hash_log_extend_event := fun _ _ _ _ _ => s

/-- A machine with only a V2 TPM, on handle 9, present, whose entry points all
answer with status `s`. -/
def v2_platform (s : Nat) : Platform where
  locate_handle := fun g => match g with
    | Guid.tpm_guid => none
    | Guid.tpm2_guid => some [9, 11]
  status_check := fun _ => (0, ⟨0, 0⟩)
  get_capability := fun _ => (0, ⟨1⟩)
  zalloc_ok := fun _ => true
  pass_through_to_tpm := fun _ _ _ _ _ => s
  submit_command := fun _ _ _ _ _ => s
  log_extend_event := fun _ _ _ _ _ => s
  hash_log_extend_event := fun _ _ _ _ _ => s

/-- The bytes of the text "test-event". -/
def test_event : List Nat := [116, 101, 115, 116, 45, 101, 118, 101, 110, 116]

/-- The bytes of the text "boot-measurement". -/
def boot_measurement : List Nat :=
  [98, 111, 111, 116, 45, 109, 101, 97, 115, 117, 114, 101, 109, 101, 110, 116]

/-! ## Closed forms of the records built by `grub_tpm_log_event` -/

/-- The V1 record as `grub_tpm_log_event` hands it to `log_extend_event`. -/
def v1_record (pcr : Fin 256) (description : List Nat) : Event where
  pcrindex := pcr.val
  eventtype := 0x0d
  digest := List.replicate 20 0
  eventsize := (grub_strlen (description ++ [0]) + 1) % 2 ^ 32
  event := grub_memcpy
    (List.replicate (sizeof_Event + grub_strlen (description ++ [0]) + 1 - offsetof_Event_event) 0)
    (description ++ [0]) ((grub_strlen (description ++ [0]) + 1) % 2 ^ 32)

/-- The V2 record as `grub_tpm_log_event` hands it to `hash_log_extend_event`. -/
def v2_record (K : Headers) (pcr : Fin 256) (description : List Nat) : EFI_TCG2_EVENT where
  Size := (K.sizeof_EFI_TCG2_EVENT - K.sizeof_event2_Event
            + grub_strlen (description ++ [0]) + 1) % 2 ^ 32
  Header := ⟨K.sizeof_EFI_TCG2_EVENT_HEADER, 1, pcr.val, 0x0d⟩
  Event := grub_memcpy
    (List.replicate (sizeof_Event + grub_strlen (description ++ [0]) + 1
        - (K.sizeof_EFI_TCG2_EVENT - K.sizeof_event2_Event)) 0)
    (description ++ [0]) (grub_strlen (description ++ [0]) + 1)

/-! ## Auxiliary facts -/

theorem grub_strlen_terminated (d rest : List Nat) (h : ∀ c ∈ d, c ≠ 0) :
    grub_strlen (d ++ 0 :: rest) = d.length := by
  induction d with
  | nil => simp [grub_strlen]
  | cons c cs ih =>
    have hc : c ≠ 0 := h c (List.mem_cons_self c cs)
    have hcs : ∀ x ∈ cs, x ≠ 0 := fun x hx => h x (List.mem_cons_of_mem c hx)
    simp [grub_strlen, hc, ih hcs]

theorem find_cases (P : Platform) :
    (∃ h hs, P.locate_handle Guid.tpm_guid = some (h :: hs)
        ∧ grub_tpm_handle_find P =
            (some (h, 1), [Ev.grub_efi_locate_handle Guid.tpm_guid (some (h :: hs))]))
    ∨ (∃ r h hs, (r = none ∨ r = some []) ∧ P.locate_handle Guid.tpm_guid = r
        ∧ P.locate_handle Guid.tpm2_guid = some (h :: hs)
        ∧ grub_tpm_handle_find P =
            (some (h, 2), [Ev.grub_efi_locate_handle Guid.tpm_guid r,
                           Ev.grub_efi_locate_handle Guid.tpm2_guid (some (h :: hs))]))
    ∨ (∃ r1 r2, (r1 = none ∨ r1 = some []) ∧ (r2 = none ∨ r2 = some [])
        ∧ P.locate_handle Guid.tpm_guid = r1 ∧ P.locate_handle Guid.tpm2_guid = r2
        ∧ grub_tpm_handle_find P =
            (none, [Ev.grub_efi_locate_handle Guid.tpm_guid r1,
                    Ev.grub_efi_locate_handle Guid.tpm2_guid r2])) := by
  unfold grub_tpm_handle_find
  rcases h1 : P.locate_handle Guid.tpm_guid with _ | ⟨_ | ⟨a, l⟩⟩ <;>
    rcases h2 : P.locate_handle Guid.tpm2_guid with _ | ⟨_ | ⟨b, m⟩⟩ <;> simp

theorem hw_calls_find (P : Platform) : hw_calls (grub_tpm_handle_find P).2 = [] := by
  rcases find_cases P with ⟨h, hs, _, hf⟩ | ⟨r, h, hs, _, _, _, hf⟩ | ⟨r1, r2, _, _, _, _, hf⟩ <;>
    simp [hf, hw_calls, Ev.is_command]

theorem hw_calls_append (t l : List Ev) : hw_calls (t ++ l) = hw_calls t ++ hw_calls l := by
  simp [hw_calls]

theorem as_grub_switch (K : Headers) (s : Nat) (t : List Ev) (o : Outcome)
    (ho : o = (if s = K.GRUB_EFI_SUCCESS then ⟨GRUB_ERR_NONE, none, t⟩
        else if s = K.GRUB_EFI_DEVICE_ERROR then
          grub_error GRUB_ERR_IO "Command failed" t
        else if s = K.GRUB_EFI_INVALID_PARAMETER then
          grub_error GRUB_ERR_BAD_ARGUMENT "Invalid parameter" t
        else if s = K.GRUB_EFI_BUFFER_TOO_SMALL then
          grub_error GRUB_ERR_BAD_ARGUMENT "Output buffer too small" t
        else if s = K.GRUB_EFI_NOT_FOUND then
          grub_error GRUB_ERR_UNKNOWN_DEVICE "TPM unavailable" t
        else
          grub_error GRUB_ERR_UNKNOWN_DEVICE "Unknown TPM error" t)) :
    o.trace = t ∧ (o.ret, o.errmsg) = (StatusTranslator K s).as_grub := by
  subst ho
  unfold StatusTranslator
  split_ifs <;> simp [grub_error, ErrorKind.as_grub]

/-- The V1 branch of `grub_tpm_execute` once the TPM is located and present. -/
theorem execute_v1 (K : Headers) (P : Platform)
    (inbuf : PassThroughToTPM_InputParamBlock) (outbuf : PassThroughToTPM_OutputParamBlock)
    (tpm : Nat) (hloc : (grub_tpm_handle_find P).1 = some (tpm, 1))
    (hp : grub_tpm_present K P tpm = true) :
    (grub_tpm_execute K P inbuf outbuf).trace =
        (grub_tpm_handle_find P).2 ++
          [Ev.grub_efi_open_protocol tpm Guid.tpm_guid, Ev.status_check tpm,
           Ev.pass_through_to_tpm tpm (u32_sub inbuf.IPBLength (inhdrsize K)) inbuf.TPMOperandIn
             (u32_sub outbuf.OPBLength (outhdrsize K)) outbuf.TPMOperandOut]
    ∧ ((grub_tpm_execute K P inbuf outbuf).ret, (grub_tpm_execute K P inbuf outbuf).errmsg) =
        (StatusTranslator K (P.pass_through_to_tpm tpm (u32_sub inbuf.IPBLength (inhdrsize K))
          inbuf.TPMOperandIn (u32_sub outbuf.OPBLength (outhdrsize K))
          outbuf.TPMOperandOut)).as_grub := by
  rcases hf : grub_tpm_handle_find P with ⟨r, t⟩
  rw [hf] at hloc
  simp only at hloc
  subst hloc
  have h := as_grub_switch K (P.pass_through_to_tpm tpm (u32_sub inbuf.IPBLength (inhdrsize K))
    inbuf.TPMOperandIn (u32_sub outbuf.OPBLength (outhdrsize K)) outbuf.TPMOperandOut)
    (t ++ [Ev.grub_efi_open_protocol tpm Guid.tpm_guid, Ev.status_check tpm,
      Ev.pass_through_to_tpm tpm (u32_sub inbuf.IPBLength (inhdrsize K)) inbuf.TPMOperandIn
        (u32_sub outbuf.OPBLength (outhdrsize K)) outbuf.TPMOperandOut])
    (grub_tpm_execute K P inbuf outbuf)
    (by simp [grub_tpm_execute, hf, hp, inhdrsize, outhdrsize])
  exact h

/-- The V2 branch of `grub_tpm_execute` once the TPM is located and present. -/
theorem execute_v2 (K : Headers) (P : Platform)
    (inbuf : PassThroughToTPM_InputParamBlock) (outbuf : PassThroughToTPM_OutputParamBlock)
    (tpm2 : Nat) (hloc : (grub_tpm_handle_find P).1 = some (tpm2, 2))
    (hp : grub_tpm2_present K P tpm2 = true) :
    (grub_tpm_execute K P inbuf outbuf).trace =
        (grub_tpm_handle_find P).2 ++
          [Ev.grub_efi_open_protocol tpm2 Guid.tpm2_guid, Ev.get_capability tpm2,
           Ev.submit_command tpm2 (u32_sub inbuf.IPBLength (inhdrsize K)) inbuf.TPMOperandIn
             (u32_sub outbuf.OPBLength (outhdrsize K)) outbuf.TPMOperandOut]
    ∧ ((grub_tpm_execute K P inbuf outbuf).ret, (grub_tpm_execute K P inbuf outbuf).errmsg) =
        (StatusTranslator K (P.submit_command tpm2 (u32_sub inbuf.IPBLength (inhdrsize K))
          inbuf.TPMOperandIn (u32_sub outbuf.OPBLength (outhdrsize K))
          outbuf.TPMOperandOut)).as_grub := by
  rcases hf : grub_tpm_handle_find P with ⟨r, t⟩
  rw [hf] at hloc
  simp only at hloc
  subst hloc
  exact as_grub_switch K (P.submit_command tpm2 (u32_sub inbuf.IPBLength (inhdrsize K))
    inbuf.TPMOperandIn (u32_sub outbuf.OPBLength (outhdrsize K)) outbuf.TPMOperandOut)
    (t ++ [Ev.grub_efi_open_protocol tpm2 Guid.tpm2_guid, Ev.get_capability tpm2,
      Ev.submit_command tpm2 (u32_sub inbuf.IPBLength (inhdrsize K)) inbuf.TPMOperandIn
        (u32_sub outbuf.OPBLength (outhdrsize K)) outbuf.TPMOperandOut])
    (grub_tpm_execute K P inbuf outbuf)
    (by simp [grub_tpm_execute, hf, hp, inhdrsize, outhdrsize])

/-- The V1 branch of `grub_tpm_log_event` once the TPM is located and present
and the record is allocated. -/
theorem log_event_v1 (K : Headers) (P : Platform) (buf : List Nat) (size : Nat)
    (pcr : Fin 256) (description : List Nat)
    (tpm : Nat) (hloc : (grub_tpm_handle_find P).1 = some (tpm, 1))
    (hp : grub_tpm_present K P tpm = true)
    (ha : P.zalloc_ok (sizeof_Event + grub_strlen (description ++ [0]) + 1) = true) :
    (grub_tpm_log_event K P buf size pcr description).trace =
        (grub_tpm_handle_find P).2 ++
          [Ev.grub_efi_open_protocol tpm Guid.tpm_guid, Ev.status_check tpm,
           Ev.grub_zalloc (sizeof_Event + grub_strlen (description ++ [0]) + 1) true,
           Ev.log_extend_event tpm buf size 4 (v1_record pcr description)]
    ∧ ((grub_tpm_log_event K P buf size pcr description).ret,
        (grub_tpm_log_event K P buf size pcr description).errmsg) =
        (StatusTranslator K
          (P.log_extend_event tpm buf size 4 (v1_record pcr description))).as_grub := by
  rcases hf : grub_tpm_handle_find P with ⟨r, t⟩
  rw [hf] at hloc
  simp only at hloc
  subst hloc
  exact as_grub_switch K (P.log_extend_event tpm buf size 4 (v1_record pcr description))
    (t ++ [Ev.grub_efi_open_protocol tpm Guid.tpm_guid, Ev.status_check tpm,
      Ev.grub_zalloc (sizeof_Event + grub_strlen (description ++ [0]) + 1) true,
      Ev.log_extend_event tpm buf size 4 (v1_record pcr description)])
    (grub_tpm_log_event K P buf size pcr description)
    (by simp [grub_tpm_log_event, hf, hp, ha, v1_record, Event.zalloc])

/-- The V2 branch of `grub_tpm_log_event` once the TPM is located and present
and the record is allocated. -/
theorem log_event_v2 (K : Headers) (P : Platform) (buf : List Nat) (size : Nat)
    (pcr : Fin 256) (description : List Nat)
    (tpm2 : Nat) (hloc : (grub_tpm_handle_find P).1 = some (tpm2, 2))
    (hp : grub_tpm2_present K P tpm2 = true)
    (ha : P.zalloc_ok (sizeof_Event + grub_strlen (description ++ [0]) + 1) = true) :
    (grub_tpm_log_event K P buf size pcr description).trace =
        (grub_tpm_handle_find P).2 ++
          [Ev.grub_efi_open_protocol tpm2 Guid.tpm2_guid, Ev.get_capability tpm2,
           Ev.grub_zalloc (sizeof_Event + grub_strlen (description ++ [0]) + 1) true,
           Ev.hash_log_extend_event tpm2 0 buf size (v2_record K pcr description)]
    ∧ ((grub_tpm_log_event K P buf size pcr description).ret,
        (grub_tpm_log_event K P buf size pcr description).errmsg) =
        (StatusTranslator K
          (P.hash_log_extend_event tpm2 0 buf size (v2_record K pcr description))).as_grub := by
  rcases hf : grub_tpm_handle_find P with ⟨r, t⟩
  rw [hf] at hloc
  simp only at hloc
  subst hloc
  exact as_grub_switch K (P.hash_log_extend_event tpm2 0 buf size (v2_record K pcr description))
    (t ++ [Ev.grub_efi_open_protocol tpm2 Guid.tpm2_guid, Ev.get_capability tpm2,
      Ev.grub_zalloc (sizeof_Event + grub_strlen (description ++ [0]) + 1) true,
      Ev.hash_log_extend_event tpm2 0 buf size (v2_record K pcr description)])
    (grub_tpm_log_event K P buf size pcr description)
    (by simp [grub_tpm_log_event, hf, hp, ha, v2_record, EFI_TCG2_EVENT.zalloc])

/-- The allocation-failure exit of `grub_tpm_log_event`, either generation. -/
theorem log_event_nomem (K : Headers) (P : Platform) (buf : List Nat) (size : Nat)
    (pcr : Fin 256) (description : List Nat) (tpm v : Nat)
    (hloc : (grub_tpm_handle_find P).1 = some (tpm, v))
    (hval : (v = 1 ∧ grub_tpm_present K P tpm = true)
      ∨ (v ≠ 1 ∧ grub_tpm2_present K P tpm = true))
    (ha : P.zalloc_ok (sizeof_Event + grub_strlen (description ++ [0]) + 1) = false) :
    grub_tpm_log_event K P buf size pcr description =
      ⟨GRUB_ERR_OUT_OF_MEMORY, some "cannot allocate TPM event buffer",
        (grub_tpm_handle_find P).2 ++
          [Ev.grub_efi_open_protocol tpm (if v = 1 then Guid.tpm_guid else Guid.tpm2_guid),
           (if v = 1 then Ev.status_check tpm else Ev.get_capability tpm),
           Ev.grub_zalloc (sizeof_Event + grub_strlen (description ++ [0]) + 1) false,
           Ev.grub_printf "No buffer\n"]⟩ := by
  rcases hf : grub_tpm_handle_find P with ⟨r, t⟩
  rw [hf] at hloc
  simp only at hloc
  subst hloc
  rcases hval with ⟨hv, hp⟩ | ⟨hv, hp⟩
  · subst hv
    simp [grub_tpm_log_event, hf, hp, ha, grub_error]
  · simp [grub_tpm_log_event, hf, hp, ha, hv, grub_error]

theorem u32_sub_wraps (a b : Nat) (hb : b < 2 ^ 32) (h : a < b) :
    u32_sub a b = a + 2 ^ 32 - b := by
  unfold u32_sub
  have ha : a % 2 ^ 32 = a := Nat.mod_eq_of_lt (by omega)
  have hb2 : b % 2 ^ 32 = b := Nat.mod_eq_of_lt hb
  rw [ha, hb2]
  exact Nat.mod_eq_of_lt (by omega)

theorem u32_sub_exact (a b : Nat) (ha : a < 2 ^ 32) (h : b ≤ a) :
    u32_sub a b = a - b := by
  unfold u32_sub
  have ha2 : a % 2 ^ 32 = a := Nat.mod_eq_of_lt ha
  have hb2 : b % 2 ^ 32 = b := Nat.mod_eq_of_lt (by omega)
  rw [ha2, hb2]
  have e : a + 2 ^ 32 - b = (a - b) + 2 ^ 32 := by omega
  rw [e, Nat.add_mod_right]
  exact Nat.mod_eq_of_lt (by omega)

theorem inhdrsize_lt (K : Headers) : inhdrsize K < 2 ^ 32 :=
  Nat.mod_lt _ (by norm_num)

theorem bad_argument_only_from_status (K : Headers) (s : Nat)
    (h : (StatusTranslator K s).as_grub.1 = GRUB_ERR_BAD_ARGUMENT) :
    s = K.GRUB_EFI_INVALID_PARAMETER ∨ s = K.GRUB_EFI_BUFFER_TOO_SMALL := by
  unfold StatusTranslator at h
  split_ifs at h with h1 h2 h3 h4 h5
  · simp [ErrorKind.as_grub] at h
  · simp [ErrorKind.as_grub] at h
  · exact Or.inl h3
  · exact Or.inr h4
  · simp [ErrorKind.as_grub] at h
  · simp [ErrorKind.as_grub] at h

theorem strlen_description (d : List Nat) (h : ∀ c ∈ d, c ≠ 0) :
    grub_strlen (d ++ [0]) = d.length :=
  grub_strlen_terminated d [] h

theorem memcpy_take (dst src : List Nat) (n : Nat) (h : n = src.length) :
    (grub_memcpy dst src n).take n = src := by
  subst h
  simp [grub_memcpy]

theorem zalloc_sizes_append (t l : List Ev) :
    zalloc_sizes (t ++ l) = zalloc_sizes t ++ zalloc_sizes l := by
  induction t with
  | nil => rfl
  | cons e t ih => cases e <;> simp [zalloc_sizes, ih]

theorem zalloc_sizes_find (P : Platform) : zalloc_sizes (grub_tpm_handle_find P).2 = [] := by
  rcases find_cases P with ⟨h, hs, _, hf⟩ | ⟨r, h, hs, _, _, _, hf⟩ | ⟨r1, r2, _, _, _, _, hf⟩ <;>
    simp [hf, zalloc_sizes]

theorem released_append (t l : List Ev) : released (t ++ l) = released t ++ released l := by
  induction t with
  | nil => rfl
  | cons e t ih => cases e <;> simp [released, ih]

theorem acquired_append (t l : List Ev) : acquired (t ++ l) = acquired t ++ acquired l := by
  induction t with
  | nil => rfl
  | cons e t ih =>
    cases e with
    | grub_efi_locate_handle g r => cases r <;> simp [acquired, ih]
    | grub_zalloc n ok => cases ok <;> simp [acquired, ih]
    | _ => simp [acquired, ih]

theorem released_find (P : Platform) : released (grub_tpm_handle_find P).2 = [] := by
  rcases find_cases P with ⟨h, hs, _, hf⟩ | ⟨r, h, hs, _, _, _, hf⟩ | ⟨r1, r2, _, _, _, _, hf⟩ <;>
    simp [hf, released]

theorem acquired_find (P : Platform) :
    (acquired (grub_tpm_handle_find P).2 = [] ↔
      P.locate_handle Guid.tpm_guid = none ∧ P.locate_handle Guid.tpm2_guid = none)
    ∧ (acquired (grub_tpm_handle_find P).2 = [] → (grub_tpm_handle_find P).1 = none) := by
  rcases find_cases P with ⟨h, hs, h1, hf⟩ | ⟨r, h, hs, hr, h1, h2, hf⟩
      | ⟨r1, r2, hr1, hr2, h1, h2, hf⟩
  · simp [hf, h1, acquired]
  · rcases hr with hr | hr <;> subst hr <;> simp [hf, h1, h2, acquired]
  · rcases hr1 with hr1 | hr1 <;> rcases hr2 with hr2 | hr2 <;> subst hr1 <;> subst hr2 <;>
      simp [hf, h1, h2, acquired]

/-- Every trace of `grub_tpm_execute` is the trace of the locator followed by
calls that neither acquire nor release a buffer. -/
theorem execute_trace_shape (K : Headers) (P : Platform)
    (inbuf : PassThroughToTPM_InputParamBlock) (outbuf : PassThroughToTPM_OutputParamBlock) :
    ∃ rest, (grub_tpm_execute K P inbuf outbuf).trace = (grub_tpm_handle_find P).2 ++ rest
      ∧ released rest = [] ∧ acquired rest = []
      ∧ ((grub_tpm_handle_find P).1 = none → rest = []) := by
  rcases hf : grub_tpm_handle_find P with ⟨r, t⟩
  rcases r with _ | ⟨tpm, v⟩
  · exact ⟨[], by simp [grub_tpm_execute, hf], rfl, rfl, fun _ => rfl⟩
  · by_cases hv : v = 1
    · subst hv
      by_cases hp : grub_tpm_present K P tpm = true
      · have h := (execute_v1 K P inbuf outbuf tpm (by rw [hf]) hp).1
        rw [hf] at h
        exact ⟨_, h, by simp [released], by simp [acquired], by simp⟩
      · refine ⟨[Ev.grub_efi_open_protocol tpm Guid.tpm_guid, Ev.status_check tpm], ?_,
          by simp [released], by simp [acquired], by simp⟩
        simp [grub_tpm_execute, hf, hp]
    · by_cases hp : grub_tpm2_present K P tpm = true
      · refine ⟨[Ev.grub_efi_open_protocol tpm Guid.tpm2_guid, Ev.get_capability tpm,
            Ev.submit_command tpm (u32_sub inbuf.IPBLength (inhdrsize K)) inbuf.TPMOperandIn
              (u32_sub outbuf.OPBLength (outhdrsize K)) outbuf.TPMOperandOut], ?_,
          by simp [released], by simp [acquired], by simp⟩
        simp only [grub_tpm_execute, hf, hv, hp, if_false, if_true, not_true_eq_false,
          inhdrsize, outhdrsize]
        split_ifs <;> simp [grub_error]
      · refine ⟨[Ev.grub_efi_open_protocol tpm Guid.tpm2_guid, Ev.get_capability tpm], ?_,
          by simp [released], by simp [acquired], by simp⟩
        simp [grub_tpm_execute, hf, hv, hp]

/-- Every trace of `grub_tpm_log_event` is the trace of the locator followed
by calls that release nothing. -/
theorem log_event_trace_shape (K : Headers) (P : Platform) (buf : List Nat) (size : Nat)
    (pcr : Fin 256) (description : List Nat) :
    ∃ rest, (grub_tpm_log_event K P buf size pcr description).trace
        = (grub_tpm_handle_find P).2 ++ rest
      ∧ released rest = []
      ∧ ((grub_tpm_handle_find P).1 = none → rest = []) := by
  rcases hf : grub_tpm_handle_find P with ⟨r, t⟩
  rcases r with _ | ⟨tpm, v⟩
  · exact ⟨[], by simp [grub_tpm_log_event, hf], rfl, fun _ => rfl⟩
  · by_cases hv : v = 1
    · subst hv
      by_cases hp : grub_tpm_present K P tpm = true
      · by_cases ha : P.zalloc_ok (sizeof_Event + grub_strlen (description ++ [0]) + 1) = true
        · have h := (log_event_v1 K P buf size pcr description tpm (by rw [hf]) hp ha).1
          rw [hf] at h
          exact ⟨_, h, by simp [released], by simp⟩
        · have h := log_event_nomem K P buf size pcr description tpm 1 (by rw [hf])
            (Or.inl ⟨rfl, hp⟩) (by simpa using ha)
          rw [hf] at h
          exact ⟨_, by rw [h], by simp [released], by simp⟩
      · refine ⟨[Ev.grub_efi_open_protocol tpm Guid.tpm_guid, Ev.status_check tpm], ?_,
          by simp [released], by simp⟩
        simp [grub_tpm_log_event, hf, hp]
    · by_cases hp : grub_tpm2_present K P tpm = true
      · by_cases ha : P.zalloc_ok (sizeof_Event + grub_strlen (description ++ [0]) + 1) = true
        · refine ⟨[Ev.grub_efi_open_protocol tpm Guid.tpm2_guid, Ev.get_capability tpm,
              Ev.grub_zalloc (sizeof_Event + grub_strlen (description ++ [0]) + 1) true,
              Ev.hash_log_extend_event tpm 0 buf size (v2_record K pcr description)], ?_,
            by simp [released], by simp⟩
          simp only [grub_tpm_log_event, hf, hv, hp, ha, if_false, if_true, not_true_eq_false,
            v2_record, EFI_TCG2_EVENT.zalloc]
          split_ifs <;> simp [grub_error]
        · have h := log_event_nomem K P buf size pcr description tpm v (by rw [hf])
            (Or.inr ⟨hv, hp⟩) (by simpa using ha)
          rw [hf] at h
          exact ⟨_, by rw [h], by simp [released, hv], by simp⟩
      · refine ⟨[Ev.grub_efi_open_protocol tpm Guid.tpm2_guid, Ev.get_capability tpm], ?_,
          by simp [released], by simp⟩
        simp [grub_tpm_log_event, hf, hv, hp]

theorem balanced_of_released_nil (t : List Ev) (h : released t = []) :
    (balanced t = true ↔ acquired t = []) := by
  simp [balanced, h, List.isEmpty_iff]

/-! ## Claims -/

/-- C7: for every pair of handle lists returned by the handle directory (NULL
or an array, for each of the two protocol identifiers),
`grub_tpm_handle_find` reports generation 1 with the first V1 handle whenever
the V1 list is non-empty, whatever the V2 list is; otherwise generation 2 with
the first V2 handle whenever the V2 list is non-empty; and it returns absent
exactly when both lists are empty or unavailable. -/
theorem handle_find_prefers_v1 (P : Platform) :
    (∀ h hs, P.locate_handle Guid.tpm_guid = some (h :: hs) →
        (grub_tpm_handle_find P).1 = some (h, 1))
    ∧ (∀ h hs, (P.locate_handle Guid.tpm_guid = none ∨ P.locate_handle Guid.tpm_guid = some []) →
        P.locate_handle Guid.tpm2_guid = some (h :: hs) →
        (grub_tpm_handle_find P).1 = some (h, 2))
    ∧ ((grub_tpm_handle_find P).1 = none ↔
        (P.locate_handle Guid.tpm_guid = none ∨ P.locate_handle Guid.tpm_guid = some [])
        ∧ (P.locate_handle Guid.tpm2_guid = none ∨ P.locate_handle Guid.tpm2_guid = some [])) := by
  unfold grub_tpm_handle_find
  rcases h1 : P.locate_handle Guid.tpm_guid with _ | ⟨_ | ⟨a, l⟩⟩ <;>
    rcases h2 : P.locate_handle Guid.tpm2_guid with _ | ⟨_ | ⟨b, m⟩⟩ <;> simp

/-- C1: whenever `grub_tpm_handle_find` finds no handle, or the capability
query of the located generation returns a non-success status, or reports the
present flag clear, or (V1 only) reports the deactivated flag set, both
`grub_tpm_execute` and `grub_tpm_log_event` return 0 without an error message
and the trace holds no call of `pass_through_to_tpm`, `submit_command`,
`log_extend_event` or `hash_log_extend_event`. -/
theorem absent_tpm_is_silent_success (K : Headers) (P : Platform)
    (inbuf : PassThroughToTPM_InputParamBlock) (outbuf : PassThroughToTPM_OutputParamBlock)
    (buf : List Nat) (size : Nat) (pcr : Fin 256) (description : List Nat)
    (h : (grub_tpm_handle_find P).1 = none
      ∨ (∃ tpm, (grub_tpm_handle_find P).1 = some (tpm, 1)
          ∧ ((P.status_check tpm).1 ≠ K.GRUB_EFI_SUCCESS
              ∨ (P.status_check tpm).2.TPMPresentFlag = 0
              ∨ (P.status_check tpm).2.TPMDeactivatedFlag ≠ 0))
      ∨ (∃ tpm2, (grub_tpm_handle_find P).1 = some (tpm2, 2)
          ∧ ((P.get_capability tpm2).1 ≠ K.GRUB_EFI_SUCCESS
              ∨ (P.get_capability tpm2).2.TPMPresentFlag = 0))) :
    (grub_tpm_execute K P inbuf outbuf).ret = GRUB_ERR_NONE
    ∧ (grub_tpm_execute K P inbuf outbuf).errmsg = none
    ∧ hw_calls (grub_tpm_execute K P inbuf outbuf).trace = []
    ∧ (grub_tpm_log_event K P buf size pcr description).ret = GRUB_ERR_NONE
    ∧ (grub_tpm_log_event K P buf size pcr description).errmsg = none
    ∧ hw_calls (grub_tpm_log_event K P buf size pcr description).trace = [] := by
  have hc := hw_calls_find P
  rcases hf : grub_tpm_handle_find P with ⟨r, t⟩
  rw [hf] at h hc
  simp only at h hc
  rcases h with h | ⟨tpm, h, hq⟩ | ⟨tpm2, h, hq⟩
  · subst h
    simp [grub_tpm_execute, grub_tpm_log_event, hf, hc]
  · subst h
    have hp : grub_tpm_present K P tpm = false := by
      unfold grub_tpm_present
      rcases hq with hq | hq | hq <;> simp [hq]
    simp [grub_tpm_execute, grub_tpm_log_event, hf, hp, hw_calls, Ev.is_command] at hc ⊢
    exact hc
  · subst h
    have hp : grub_tpm2_present K P tpm2 = false := by
      unfold grub_tpm2_present
      rcases hq with hq | hq <;> simp [hq]
    simp [grub_tpm_execute, grub_tpm_log_event, hf, hp, hw_calls, Ev.is_command] at hc ⊢
    exact hc

/-- Witness of C1 on a machine without TPM, on a machine whose V1 TPM is
deactivated and on a machine whose V2 capability query fails. -/
theorem absent_tpm_is_silent_success_witness :
    (hw_calls (grub_tpm_execute efi64_headers no_tpm ⟨12, [1, 2, 3, 4]⟩ ⟨8, [0, 0, 0, 0]⟩).trace = []
      ∧ (grub_tpm_log_event efi64_headers no_tpm [1, 2] 2 7 test_event).ret = GRUB_ERR_NONE)
    ∧ (hw_calls (grub_tpm_execute efi64_headers
          { v1_platform 0 with status_check := fun _ => (0, ⟨1, 1⟩) }
          ⟨12, [1, 2, 3, 4]⟩ ⟨8, [0, 0, 0, 0]⟩).trace = []
      ∧ hw_calls (grub_tpm_log_event efi64_headers
          { v1_platform 0 with status_check := fun _ => (0, ⟨1, 1⟩) }
          [1, 2] 2 7 test_event).trace = [])
    ∧ (grub_tpm_execute efi64_headers
          { v2_platform 0 with get_capability := fun _ => (2 ^ 63 + 7, ⟨1⟩) }
          ⟨12, [1, 2, 3, 4]⟩ ⟨8, [0, 0, 0, 0]⟩).ret = GRUB_ERR_NONE :=
  ⟨⟨(absent_tpm_is_silent_success efi64_headers no_tpm ⟨12, [1, 2, 3, 4]⟩ ⟨8, [0, 0, 0, 0]⟩
        [1, 2] 2 7 test_event (Or.inl (by decide))).2.2.1,
    (absent_tpm_is_silent_success efi64_headers no_tpm ⟨12, [1, 2, 3, 4]⟩ ⟨8, [0, 0, 0, 0]⟩
        [1, 2] 2 7 test_event (Or.inl (by decide))).2.2.2.1⟩,
   ⟨(absent_tpm_is_silent_success efi64_headers
        { v1_platform 0 with status_check := fun _ => (0, ⟨1, 1⟩) }
        ⟨12, [1, 2, 3, 4]⟩ ⟨8, [0, 0, 0, 0]⟩ [1, 2] 2 7 test_event
        (Or.inr (Or.inl ⟨7, by decide, Or.inr (Or.inr (by decide))⟩))).2.2.1,
    (absent_tpm_is_silent_success efi64_headers
        { v1_platform 0 with status_check := fun _ => (0, ⟨1, 1⟩) }
        ⟨12, [1, 2, 3, 4]⟩ ⟨8, [0, 0, 0, 0]⟩ [1, 2] 2 7 test_event
        (Or.inr (Or.inl ⟨7, by decide, Or.inr (Or.inr (by decide))⟩))).2.2.2.2.2⟩,
   (absent_tpm_is_silent_success efi64_headers
        { v2_platform 0 with get_capability := fun _ => (2 ^ 63 + 7, ⟨1⟩) }
        ⟨12, [1, 2, 3, 4]⟩ ⟨8, [0, 0, 0, 0]⟩ [1, 2] 2 7 test_event
        (Or.inr (Or.inr ⟨9, by decide, Or.inl (by decide)⟩))).1⟩

/-- C2: for every hardware status code s, each of the four call sites
(`grub_tpm_execute` under V1 and V2, `grub_tpm_log_event` under V1 and V2)
whose hardware entry point answers s returns the error number and message of
`StatusTranslator K s`, one table for all of them: SUCCESS gives Ok (0, no
message), DEVICE_ERROR gives IoFailure (GRUB_ERR_IO), INVALID_PARAMETER gives
BadArgument with "Invalid parameter", BUFFER_TOO_SMALL gives BadArgument with
"Output buffer too small", NOT_FOUND gives DeviceUnavailable
(GRUB_ERR_UNKNOWN_DEVICE, "TPM unavailable") and any other code gives
UnknownDeviceError (GRUB_ERR_UNKNOWN_DEVICE, "Unknown TPM error"). -/
theorem status_translation_uniform (K : Headers) (hd : K.status_distinct) (s : Nat) :
    (StatusTranslator K K.GRUB_EFI_SUCCESS = ErrorKind.Ok
      ∧ StatusTranslator K K.GRUB_EFI_DEVICE_ERROR = ErrorKind.IoFailure
      ∧ StatusTranslator K K.GRUB_EFI_INVALID_PARAMETER = ErrorKind.BadArgument
      ∧ StatusTranslator K K.GRUB_EFI_BUFFER_TOO_SMALL = ErrorKind.BadArgumentOutputTooSmall
      ∧ StatusTranslator K K.GRUB_EFI_NOT_FOUND = ErrorKind.DeviceUnavailable
      ∧ (s ≠ K.GRUB_EFI_SUCCESS → s ≠ K.GRUB_EFI_DEVICE_ERROR →
          s ≠ K.GRUB_EFI_INVALID_PARAMETER → s ≠ K.GRUB_EFI_BUFFER_TOO_SMALL →
          s ≠ K.GRUB_EFI_NOT_FOUND → StatusTranslator K s = ErrorKind.UnknownDeviceError))
    ∧ (ErrorKind.Ok.as_grub = (GRUB_ERR_NONE, none)
      ∧ ErrorKind.IoFailure.as_grub.1 = GRUB_ERR_IO
      ∧ ErrorKind.BadArgument.as_grub = (GRUB_ERR_BAD_ARGUMENT, some "Invalid parameter")
      ∧ ErrorKind.BadArgumentOutputTooSmall.as_grub =
          (GRUB_ERR_BAD_ARGUMENT, some "Output buffer too small")
      ∧ ErrorKind.DeviceUnavailable.as_grub = (GRUB_ERR_UNKNOWN_DEVICE, some "TPM unavailable")
      ∧ ErrorKind.UnknownDeviceError.as_grub =
          (GRUB_ERR_UNKNOWN_DEVICE, some "Unknown TPM error"))
    ∧ (∀ (P : Platform) (inbuf : PassThroughToTPM_InputParamBlock)
        (outbuf : PassThroughToTPM_OutputParamBlock) (tpm : Nat),
        (grub_tpm_handle_find P).1 = some (tpm, 1) → grub_tpm_present K P tpm = true →
        P.pass_through_to_tpm tpm (u32_sub inbuf.IPBLength (inhdrsize K)) inbuf.TPMOperandIn
          (u32_sub outbuf.OPBLength (outhdrsize K)) outbuf.TPMOperandOut = s →
        ((grub_tpm_execute K P inbuf outbuf).ret, (grub_tpm_execute K P inbuf outbuf).errmsg)
          = (StatusTranslator K s).as_grub)
    ∧ (∀ (P : Platform) (inbuf : PassThroughToTPM_InputParamBlock)
        (outbuf : PassThroughToTPM_OutputParamBlock) (tpm2 : Nat),
        (grub_tpm_handle_find P).1 = some (tpm2, 2) → grub_tpm2_present K P tpm2 = true →
        P.submit_command tpm2 (u32_sub inbuf.IPBLength (inhdrsize K)) inbuf.TPMOperandIn
          (u32_sub outbuf.OPBLength (outhdrsize K)) outbuf.TPMOperandOut = s →
        ((grub_tpm_execute K P inbuf outbuf).ret, (grub_tpm_execute K P inbuf outbuf).errmsg)
          = (StatusTranslator K s).as_grub)
    ∧ (∀ (P : Platform) (buf : List Nat) (size : Nat) (pcr : Fin 256) (description : List Nat)
        (tpm : Nat),
        (grub_tpm_handle_find P).1 = some (tpm, 1) → grub_tpm_present K P tpm = true →
        P.zalloc_ok (sizeof_Event + grub_strlen (description ++ [0]) + 1) = true →
        P.log_extend_event tpm buf size 4 (v1_record pcr description) = s →
        ((grub_tpm_log_event K P buf size pcr description).ret,
          (grub_tpm_log_event K P buf size pcr description).errmsg)
          = (StatusTranslator K s).as_grub)
    ∧ (∀ (P : Platform) (buf : List Nat) (size : Nat) (pcr : Fin 256) (description : List Nat)
        (tpm2 : Nat),
        (grub_tpm_handle_find P).1 = some (tpm2, 2) → grub_tpm2_present K P tpm2 = true →
        P.zalloc_ok (sizeof_Event + grub_strlen (description ++ [0]) + 1) = true →
        P.hash_log_extend_event tpm2 0 buf size (v2_record K pcr description) = s →
        ((grub_tpm_log_event K P buf size pcr description).ret,
          (grub_tpm_log_event K P buf size pcr description).errmsg)
          = (StatusTranslator K s).as_grub) := by
  refine ⟨?_, ?_, ?_, ?_, ?_, ?_⟩
  · simp only [Headers.status_distinct, List.nodup_cons, List.mem_cons, List.mem_singleton,
      not_or, List.not_mem_nil, not_false_eq_true, List.nodup_nil, and_true] at hd
    obtain ⟨⟨h12, h13, h14, h15⟩, ⟨h23, h24, h25⟩, ⟨h34, h35⟩, h45⟩ := hd
    unfold StatusTranslator
    refine ⟨by simp, ?_, ?_, ?_, ?_, ?_⟩
    · simp [Ne.symm h12]
    · simp [Ne.symm h13, Ne.symm h23]
    · simp [Ne.symm h14, Ne.symm h24, Ne.symm h34]
    · simp [Ne.symm h15, Ne.symm h25, Ne.symm h35, Ne.symm h45]
    · intro a b c d e
      simp [a, b, c, d, e]
  · simp [ErrorKind.as_grub]
  · intro P inbuf outbuf tpm hloc hp hs
    rw [← hs]
    exact (execute_v1 K P inbuf outbuf tpm hloc hp).2
  · intro P inbuf outbuf tpm hloc hp hs
    rw [← hs]
    exact (execute_v2 K P inbuf outbuf tpm hloc hp).2
  · intro P buf size pcr description tpm hloc hp ha hs
    rw [← hs]
    exact (log_event_v1 K P buf size pcr description tpm hloc hp ha).2
  · intro P buf size pcr description tpm hloc hp ha hs
    rw [← hs]
    exact (log_event_v2 K P buf size pcr description tpm hloc hp ha).2

/-- Witness of C2: with the status BUFFER_TOO_SMALL of a 64-bit EFI build, all
four call sites return GRUB_ERR_BAD_ARGUMENT with "Output buffer too small". -/
theorem status_translation_uniform_witness :
    efi64_headers.status_distinct
    ∧ ((grub_tpm_execute efi64_headers (v1_platform (2 ^ 63 + 5)) ⟨12, [1, 2, 3, 4]⟩
          ⟨8, [0, 0, 0, 0]⟩).ret,
        (grub_tpm_execute efi64_headers (v1_platform (2 ^ 63 + 5)) ⟨12, [1, 2, 3, 4]⟩
          ⟨8, [0, 0, 0, 0]⟩).errmsg) = (GRUB_ERR_BAD_ARGUMENT, some "Output buffer too small")
    ∧ ((grub_tpm_execute efi64_headers (v2_platform (2 ^ 63 + 5)) ⟨12, [1, 2, 3, 4]⟩
          ⟨8, [0, 0, 0, 0]⟩).ret,
        (grub_tpm_execute efi64_headers (v2_platform (2 ^ 63 + 5)) ⟨12, [1, 2, 3, 4]⟩
          ⟨8, [0, 0, 0, 0]⟩).errmsg) = (GRUB_ERR_BAD_ARGUMENT, some "Output buffer too small")
    ∧ ((grub_tpm_log_event efi64_headers (v1_platform (2 ^ 63 + 5)) [1, 2] 2 7 test_event).ret,
        (grub_tpm_log_event efi64_headers (v1_platform (2 ^ 63 + 5)) [1, 2] 2 7
          test_event).errmsg) = (GRUB_ERR_BAD_ARGUMENT, some "Output buffer too small")
    ∧ ((grub_tpm_log_event efi64_headers (v2_platform (2 ^ 63 + 5)) [1, 2] 2 7 test_event).ret,
        (grub_tpm_log_event efi64_headers (v2_platform (2 ^ 63 + 5)) [1, 2] 2 7
          test_event).errmsg) = (GRUB_ERR_BAD_ARGUMENT, some "Output buffer too small") :=
  have T := status_translation_uniform efi64_headers (by decide) (2 ^ 63 + 5)
  ⟨by decide,
   (T.2.2.1 (v1_platform (2 ^ 63 + 5)) ⟨12, [1, 2, 3, 4]⟩ ⟨8, [0, 0, 0, 0]⟩ 7
      (by decide) (by decide) rfl).trans ((congrArg ErrorKind.as_grub T.1.2.2.2.1).trans T.2.1.2.2.2.1),
   (T.2.2.2.1 (v2_platform (2 ^ 63 + 5)) ⟨12, [1, 2, 3, 4]⟩ ⟨8, [0, 0, 0, 0]⟩ 9
      (by decide) (by decide) rfl).trans ((congrArg ErrorKind.as_grub T.1.2.2.2.1).trans T.2.1.2.2.2.1),
   (T.2.2.2.2.1 (v1_platform (2 ^ 63 + 5)) [1, 2] 2 7 test_event 7
      (by decide) (by decide) (by decide) rfl).trans ((congrArg ErrorKind.as_grub T.1.2.2.2.1).trans T.2.1.2.2.2.1),
   (T.2.2.2.2.2 (v2_platform (2 ^ 63 + 5)) [1, 2] 2 7 test_event 9
      (by decide) (by decide) (by decide) rfl).trans ((congrArg ErrorKind.as_grub T.1.2.2.2.1).trans T.2.1.2.2.2.1)⟩

/-- C3 (counterexample): on a 64-bit EFI build with a V1 TPM located and
validated whose entry point answers SUCCESS, a command block with IPBLength 0,
below the header size 8, is forwarded with operand length 4294967288
(0 - 8 wrapped to 32 bits) and `grub_tpm_execute` returns 0, not
GRUB_ERR_BAD_ARGUMENT. -/
theorem execute_short_input_counterexample :
    (0 < inhdrsize efi64_headers)
    ∧ (grub_tpm_execute efi64_headers (v1_platform 0) ⟨0, []⟩ ⟨4, []⟩).ret = GRUB_ERR_NONE
    ∧ (grub_tpm_execute efi64_headers (v1_platform 0) ⟨0, []⟩ ⟨4, []⟩).ret
        ≠ GRUB_ERR_BAD_ARGUMENT
    ∧ hw_calls (grub_tpm_execute efi64_headers (v1_platform 0) ⟨0, []⟩ ⟨4, []⟩).trace
        = [Ev.pass_through_to_tpm 7 4294967288 [] 0 []] := by
  decide

/-- C3 (amended): for every command block whose IPBLength is smaller than the
input header size, with a TPM of either generation located and validated,
`grub_tpm_execute` makes no bound check: it issues one hardware call whose
operand length is the wrapped value IPBLength + 2^32 - header size (at least
2^32 - header size), returns the translation of the status of that call, and
so returns GRUB_ERR_BAD_ARGUMENT only when the hardware itself answers
INVALID_PARAMETER or BUFFER_TOO_SMALL. -/
theorem execute_short_input_wraps (K : Headers) (P : Platform)
    (inbuf : PassThroughToTPM_InputParamBlock) (outbuf : PassThroughToTPM_OutputParamBlock)
    (tpm v : Nat) (hloc : (grub_tpm_handle_find P).1 = some (tpm, v))
    (hval : (v = 1 ∧ grub_tpm_present K P tpm = true)
      ∨ (v = 2 ∧ grub_tpm2_present K P tpm = true))
    (hshort : inbuf.IPBLength < inhdrsize K) :
    2 ^ 32 - inhdrsize K ≤ inbuf.IPBLength + 2 ^ 32 - inhdrsize K
    ∧ (v = 1 →
        hw_calls (grub_tpm_execute K P inbuf outbuf).trace =
          [Ev.pass_through_to_tpm tpm (inbuf.IPBLength + 2 ^ 32 - inhdrsize K)
            inbuf.TPMOperandIn (u32_sub outbuf.OPBLength (outhdrsize K)) outbuf.TPMOperandOut]
        ∧ ((grub_tpm_execute K P inbuf outbuf).ret, (grub_tpm_execute K P inbuf outbuf).errmsg)
            = (StatusTranslator K (P.pass_through_to_tpm tpm
                (inbuf.IPBLength + 2 ^ 32 - inhdrsize K) inbuf.TPMOperandIn
                (u32_sub outbuf.OPBLength (outhdrsize K)) outbuf.TPMOperandOut)).as_grub
        ∧ ((grub_tpm_execute K P inbuf outbuf).ret = GRUB_ERR_BAD_ARGUMENT →
            P.pass_through_to_tpm tpm (inbuf.IPBLength + 2 ^ 32 - inhdrsize K)
                inbuf.TPMOperandIn (u32_sub outbuf.OPBLength (outhdrsize K))
                outbuf.TPMOperandOut = K.GRUB_EFI_INVALID_PARAMETER
            ∨ P.pass_through_to_tpm tpm (inbuf.IPBLength + 2 ^ 32 - inhdrsize K)
                inbuf.TPMOperandIn (u32_sub outbuf.OPBLength (outhdrsize K))
                outbuf.TPMOperandOut = K.GRUB_EFI_BUFFER_TOO_SMALL))
    ∧ (v = 2 →
        hw_calls (grub_tpm_execute K P inbuf outbuf).trace =
          [Ev.submit_command tpm (inbuf.IPBLength + 2 ^ 32 - inhdrsize K)
            inbuf.TPMOperandIn (u32_sub outbuf.OPBLength (outhdrsize K)) outbuf.TPMOperandOut]
        ∧ ((grub_tpm_execute K P inbuf outbuf).ret, (grub_tpm_execute K P inbuf outbuf).errmsg)
            = (StatusTranslator K (P.submit_command tpm
                (inbuf.IPBLength + 2 ^ 32 - inhdrsize K) inbuf.TPMOperandIn
                (u32_sub outbuf.OPBLength (outhdrsize K)) outbuf.TPMOperandOut)).as_grub
        ∧ ((grub_tpm_execute K P inbuf outbuf).ret = GRUB_ERR_BAD_ARGUMENT →
            P.submit_command tpm (inbuf.IPBLength + 2 ^ 32 - inhdrsize K)
                inbuf.TPMOperandIn (u32_sub outbuf.OPBLength (outhdrsize K))
                outbuf.TPMOperandOut = K.GRUB_EFI_INVALID_PARAMETER
            ∨ P.submit_command tpm (inbuf.IPBLength + 2 ^ 32 - inhdrsize K)
                inbuf.TPMOperandIn (u32_sub outbuf.OPBLength (outhdrsize K))
                outbuf.TPMOperandOut = K.GRUB_EFI_BUFFER_TOO_SMALL)) := by
  have hw := u32_sub_wraps inbuf.IPBLength (inhdrsize K) (inhdrsize_lt K) hshort
  have hc := hw_calls_find P
  refine ⟨by omega, ?_, ?_⟩
  · intro hv
    subst hv
    have hp : grub_tpm_present K P tpm = true := by
      rcases hval with ⟨_, hp⟩ | ⟨h2, _⟩
      · exact hp
      · exact absurd h2 (by decide)
    obtain ⟨ht, hr⟩ := execute_v1 K P inbuf outbuf tpm hloc hp
    rw [hw] at ht hr
    refine ⟨?_, hr, ?_⟩
    · rw [ht, hw_calls_append, hc]
      simp [hw_calls, Ev.is_command]
    · intro hbad
      apply bad_argument_only_from_status
      rw [← hr]
      exact hbad
  · intro hv
    subst hv
    have hp : grub_tpm2_present K P tpm = true := by
      rcases hval with ⟨h1, _⟩ | ⟨_, hp⟩
      · exact absurd h1 (by decide)
      · exact hp
    obtain ⟨ht, hr⟩ := execute_v2 K P inbuf outbuf tpm hloc hp
    rw [hw] at ht hr
    refine ⟨?_, hr, ?_⟩
    · rw [ht, hw_calls_append, hc]
      simp [hw_calls, Ev.is_command]
    · intro hbad
      apply bad_argument_only_from_status
      rw [← hr]
      exact hbad

/-- Witness of C3 (amended): IPBLength 3 under a header of 8 bytes, on a V2
machine whose entry point answers DEVICE_ERROR: one `submit_command` call
with operand length 3 + 2^32 - 8. -/
theorem execute_short_input_wraps_witness :
    (3 < inhdrsize efi64_headers)
    ∧ hw_calls (grub_tpm_execute efi64_headers (v2_platform (2 ^ 63 + 7)) ⟨3, [1, 2, 3]⟩
          ⟨8, [0, 0, 0, 0]⟩).trace =
        [Ev.submit_command 9 (3 + 2 ^ 32 - inhdrsize efi64_headers) [1, 2, 3]
          (u32_sub 8 (outhdrsize efi64_headers)) [0, 0, 0, 0]] :=
  ⟨by decide,
   ((execute_short_input_wraps efi64_headers (v2_platform (2 ^ 63 + 7)) ⟨3, [1, 2, 3]⟩
      ⟨8, [0, 0, 0, 0]⟩ 9 2 (by decide) (Or.inr ⟨rfl, by decide⟩) (by decide)).2.2 rfl).1⟩

/-- C4: for every buffer, pcr and description, with a TPM of either generation
located and validated, if the `grub_zalloc` of the event record fails then
`grub_tpm_log_event` returns GRUB_ERR_OUT_OF_MEMORY (message "cannot allocate
TPM event buffer") and the trace holds no hardware command, in particular no
`log_extend_event` and no `hash_log_extend_event`. -/
theorem log_event_out_of_memory (K : Headers) (P : Platform) (buf : List Nat) (size : Nat)
    (pcr : Fin 256) (description : List Nat) (tpm v : Nat)
    (hloc : (grub_tpm_handle_find P).1 = some (tpm, v))
    (hval : (v = 1 ∧ grub_tpm_present K P tpm = true)
      ∨ (v ≠ 1 ∧ grub_tpm2_present K P tpm = true))
    (ha : P.zalloc_ok (sizeof_Event + grub_strlen (description ++ [0]) + 1) = false) :
    (grub_tpm_log_event K P buf size pcr description).ret = GRUB_ERR_OUT_OF_MEMORY
    ∧ (grub_tpm_log_event K P buf size pcr description).errmsg
        = some "cannot allocate TPM event buffer"
    ∧ hw_calls (grub_tpm_log_event K P buf size pcr description).trace = [] := by
  have hc := hw_calls_find P
  rw [log_event_nomem K P buf size pcr description tpm v hloc hval ha]
  refine ⟨rfl, rfl, ?_⟩
  simp only [hw_calls_append, hc, List.nil_append]
  by_cases hv : v = 1 <;> simp [hw_calls, Ev.is_command, hv]

/-- Witness of C4 on a V1 machine and on a V2 machine whose allocator fails. -/
theorem log_event_out_of_memory_witness :
    (grub_tpm_log_event efi64_headers { v1_platform 0 with zalloc_ok := fun _ => false }
        [1, 2] 2 7 test_event).ret = GRUB_ERR_OUT_OF_MEMORY
    ∧ hw_calls (grub_tpm_log_event efi64_headers
        { v2_platform 0 with zalloc_ok := fun _ => false }
        [1, 2] 2 7 test_event).trace = [] :=
  ⟨(log_event_out_of_memory efi64_headers { v1_platform 0 with zalloc_ok := fun _ => false }
      [1, 2] 2 7 test_event 7 1 (by decide) (Or.inl ⟨rfl, by decide⟩) (by decide)).1,
   (log_event_out_of_memory efi64_headers { v2_platform 0 with zalloc_ok := fun _ => false }
      [1, 2] 2 7 test_event 9 2 (by decide) (Or.inr ⟨by decide, by decide⟩) (by decide)).2.2⟩

/-- C5: for every pcr in 0..255 and every description d without a zero byte
(and short enough for its length plus the terminator to fit the 32-bit
`eventsize` field), with a V1 TPM located and validated and the allocation
succeeding, `grub_tpm_log_event` makes exactly one hardware call, a
`log_extend_event` with algorithm 0x00000004, the caller's buffer and size, and
a record whose pcrindex is pcr, eventtype is 0x0d, digest is 20 zero bytes,
eventsize is length(d) + 1 and whose first eventsize event bytes are d followed
by one zero byte. -/
theorem log_event_v1_record_layout (K : Headers) (P : Platform) (buf : List Nat) (size : Nat)
    (pcr : Fin 256) (d : List Nat) (tpm : Nat)
    (hloc : (grub_tpm_handle_find P).1 = some (tpm, 1))
    (hp : grub_tpm_present K P tpm = true)
    (ha : P.zalloc_ok (sizeof_Event + d.length + 1) = true)
    (hnul : ∀ c ∈ d, c ≠ 0) (hlen : d.length + 1 < 2 ^ 32) :
    ∃ ev : Event,
      hw_calls (grub_tpm_log_event K P buf size pcr d).trace
        = [Ev.log_extend_event tpm buf size 0x00000004 ev]
      ∧ ev.pcrindex = pcr.val
      ∧ ev.eventtype = 0x0d
      ∧ ev.digest = List.replicate 20 0
      ∧ ev.eventsize = d.length + 1
      ∧ ev.event.take ev.eventsize = d ++ [0] := by
  have hs := strlen_description d hnul
  have hc := hw_calls_find P
  rw [← hs] at ha
  obtain ⟨ht, _⟩ := log_event_v1 K P buf size pcr d tpm hloc hp ha
  refine ⟨v1_record pcr d, ?_, rfl, rfl, rfl, ?_, ?_⟩
  · rw [ht, hw_calls_append, hc]
    simp [hw_calls, Ev.is_command]
  · simp only [v1_record, hs]
    exact Nat.mod_eq_of_lt hlen
  · simp only [v1_record, hs, Nat.mod_eq_of_lt hlen]
    exact memcpy_take _ _ _ (by simp)

/-- Witness of C5: pcr 7 and the description "test-event" on a V1 machine. -/
theorem log_event_v1_record_layout_witness :
    ∃ ev : Event,
      hw_calls (grub_tpm_log_event efi64_headers (v1_platform 0) [1, 2, 3] 3 7 test_event).trace
        = [Ev.log_extend_event 7 [1, 2, 3] 3 0x00000004 ev]
      ∧ ev.pcrindex = 7
      ∧ ev.eventtype = 0x0d
      ∧ ev.digest = List.replicate 20 0
      ∧ ev.eventsize = 11
      ∧ ev.event.take ev.eventsize = test_event ++ [0] :=
  log_event_v1_record_layout efi64_headers (v1_platform 0) [1, 2, 3] 3 7 test_event 7
    (by decide) (by decide) (by decide) (by decide) (by decide)

/-- C6: for every pcr in 0..255 (255 included, the value is stored as given)
and every description d without a zero byte (short enough for the record size
to fit the 32-bit `Size` field), with only a V2 TPM located and validated and
the allocation succeeding, `grub_tpm_log_event` makes exactly one hardware
call, a `hash_log_extend_event` with flags 0, the caller's buffer and size, and
a record whose Header.HeaderSize is sizeof(EFI_TCG2_EVENT_HEADER),
Header.HeaderVersion is 1, Header.PCRIndex is pcr, Header.EventType is 0x0d,
Size is sizeof(EFI_TCG2_EVENT) - sizeof(Event placeholder) + length(d) + 1, and
whose first length(d) + 1 Event bytes are d followed by one zero byte; when
the hardware answers SUCCESS the call returns 0. -/
theorem log_event_v2_record_layout (K : Headers) (P : Platform) (buf : List Nat) (size : Nat)
    (pcr : Fin 256) (d : List Nat) (tpm2 : Nat)
    (hloc : (grub_tpm_handle_find P).1 = some (tpm2, 2))
    (hp : grub_tpm2_present K P tpm2 = true)
    (ha : P.zalloc_ok (sizeof_Event + d.length + 1) = true)
    (hnul : ∀ c ∈ d, c ≠ 0)
    (hlen : K.sizeof_EFI_TCG2_EVENT - K.sizeof_event2_Event + d.length + 1 < 2 ^ 32) :
    ∃ ev : EFI_TCG2_EVENT,
      hw_calls (grub_tpm_log_event K P buf size pcr d).trace
        = [Ev.hash_log_extend_event tpm2 0 buf size ev]
      ∧ ev.Header.HeaderSize = K.sizeof_EFI_TCG2_EVENT_HEADER
      ∧ ev.Header.HeaderVersion = 1
      ∧ ev.Header.PCRIndex = pcr.val
      ∧ ev.Header.EventType = 0x0d
      ∧ ev.Size = K.sizeof_EFI_TCG2_EVENT - K.sizeof_event2_Event + d.length + 1
      ∧ ev.Event.take (d.length + 1) = d ++ [0]
      ∧ (P.hash_log_extend_event tpm2 0 buf size ev = K.GRUB_EFI_SUCCESS →
          (grub_tpm_log_event K P buf size pcr d).ret = GRUB_ERR_NONE
          ∧ (grub_tpm_log_event K P buf size pcr d).errmsg = none) := by
  have hs := strlen_description d hnul
  have hc := hw_calls_find P
  rw [← hs] at ha
  obtain ⟨ht, hr⟩ := log_event_v2 K P buf size pcr d tpm2 hloc hp ha
  refine ⟨v2_record K pcr d, ?_, rfl, rfl, rfl, rfl, ?_, ?_, ?_⟩
  · rw [ht, hw_calls_append, hc]
    simp [hw_calls, Ev.is_command]
  · simp only [v2_record, hs]
    exact Nat.mod_eq_of_lt hlen
  · simp only [v2_record, hs]
    exact memcpy_take _ _ _ (by simp)
  · intro hok
    rw [hok] at hr
    simp only [StatusTranslator, if_true, ErrorKind.as_grub, Prod.mk.injEq] at hr
    exact hr

/-- Witness of C6: 32 bytes of 0xAA, pcr 255 and the description
"boot-measurement" on a machine with only a V2 TPM that answers SUCCESS. -/
theorem log_event_v2_record_layout_witness :
    ∃ ev : EFI_TCG2_EVENT,
      hw_calls (grub_tpm_log_event efi64_headers (v2_platform 0) (List.replicate 32 0xAA) 32 255
          boot_measurement).trace
        = [Ev.hash_log_extend_event 9 0 (List.replicate 32 0xAA) 32 ev]
      ∧ ev.Header.HeaderSize = 14
      ∧ ev.Header.HeaderVersion = 1
      ∧ ev.Header.PCRIndex = 255
      ∧ ev.Header.EventType = 0x0d
      ∧ ev.Size = 19 - 1 + 16 + 1
      ∧ ev.Event.take (16 + 1) = boot_measurement ++ [0]
      ∧ ((v2_platform 0).hash_log_extend_event 9 0 (List.replicate 32 0xAA) 32 ev = 0 →
          (grub_tpm_log_event efi64_headers (v2_platform 0) (List.replicate 32 0xAA) 32 255
            boot_measurement).ret = GRUB_ERR_NONE
          ∧ (grub_tpm_log_event efi64_headers (v2_platform 0) (List.replicate 32 0xAA) 32 255
            boot_measurement).errmsg = none) :=
  log_event_v2_record_layout efi64_headers (v2_platform 0) (List.replicate 32 0xAA) 32 255
    boot_measurement 9 (by decide) (by decide) (by decide) (by decide) (by decide)

/-- C8: for every command block, with a TPM located and validated,
`grub_tpm_execute` issues exactly one hardware call, whatever its status:
`pass_through_to_tpm` for V1 and `submit_command` for V2, with operand length
IPBLength - input header size and output capacity OPBLength - output header
size in 32-bit unsigned arithmetic (the plain difference when the length is
at least the header size), with the caller's TPMOperandIn and TPMOperandOut,
and returns the translation of the status of that call. -/
theorem execute_single_call (K : Headers) (P : Platform)
    (inbuf : PassThroughToTPM_InputParamBlock) (outbuf : PassThroughToTPM_OutputParamBlock)
    (tpm v : Nat) (hloc : (grub_tpm_handle_find P).1 = some (tpm, v))
    (hval : (v = 1 ∧ grub_tpm_present K P tpm = true)
      ∨ (v = 2 ∧ grub_tpm2_present K P tpm = true)) :
    (v = 1 →
      hw_calls (grub_tpm_execute K P inbuf outbuf).trace =
        [Ev.pass_through_to_tpm tpm (u32_sub inbuf.IPBLength (inhdrsize K)) inbuf.TPMOperandIn
          (u32_sub outbuf.OPBLength (outhdrsize K)) outbuf.TPMOperandOut]
      ∧ ((grub_tpm_execute K P inbuf outbuf).ret, (grub_tpm_execute K P inbuf outbuf).errmsg)
          = (StatusTranslator K (P.pass_through_to_tpm tpm
              (u32_sub inbuf.IPBLength (inhdrsize K)) inbuf.TPMOperandIn
              (u32_sub outbuf.OPBLength (outhdrsize K)) outbuf.TPMOperandOut)).as_grub)
    ∧ (v = 2 →
      hw_calls (grub_tpm_execute K P inbuf outbuf).trace =
        [Ev.submit_command tpm (u32_sub inbuf.IPBLength (inhdrsize K)) inbuf.TPMOperandIn
          (u32_sub outbuf.OPBLength (outhdrsize K)) outbuf.TPMOperandOut]
      ∧ ((grub_tpm_execute K P inbuf outbuf).ret, (grub_tpm_execute K P inbuf outbuf).errmsg)
          = (StatusTranslator K (P.submit_command tpm
              (u32_sub inbuf.IPBLength (inhdrsize K)) inbuf.TPMOperandIn
              (u32_sub outbuf.OPBLength (outhdrsize K)) outbuf.TPMOperandOut)).as_grub)
    ∧ (inhdrsize K ≤ inbuf.IPBLength → inbuf.IPBLength < 2 ^ 32 →
        u32_sub inbuf.IPBLength (inhdrsize K) = inbuf.IPBLength - inhdrsize K)
    ∧ (outhdrsize K ≤ outbuf.OPBLength → outbuf.OPBLength < 2 ^ 32 →
        u32_sub outbuf.OPBLength (outhdrsize K) = outbuf.OPBLength - outhdrsize K) := by
  have hc := hw_calls_find P
  refine ⟨?_, ?_, fun h1 h2 => u32_sub_exact _ _ h2 h1, fun h1 h2 => u32_sub_exact _ _ h2 h1⟩
  · intro hv
    subst hv
    have hp : grub_tpm_present K P tpm = true := by
      rcases hval with ⟨_, hp⟩ | ⟨h2, _⟩
      · exact hp
      · exact absurd h2 (by decide)
    obtain ⟨ht, hr⟩ := execute_v1 K P inbuf outbuf tpm hloc hp
    refine ⟨?_, hr⟩
    rw [ht, hw_calls_append, hc]
    simp [hw_calls, Ev.is_command]
  · intro hv
    subst hv
    have hp : grub_tpm2_present K P tpm = true := by
      rcases hval with ⟨h1, _⟩ | ⟨_, hp⟩
      · exact absurd h1 (by decide)
      · exact hp
    obtain ⟨ht, hr⟩ := execute_v2 K P inbuf outbuf tpm hloc hp
    refine ⟨?_, hr⟩
    rw [ht, hw_calls_append, hc]
    simp [hw_calls, Ev.is_command]

/-- Witness of C8: a 12-byte input block and an 8-byte output block on a V1
machine whose entry point answers DEVICE_ERROR: one `pass_through_to_tpm`
call with operand length 4 and output capacity 4, and GRUB_ERR_IO. -/
theorem execute_single_call_witness :
    hw_calls (grub_tpm_execute efi64_headers (v1_platform (2 ^ 63 + 7)) ⟨12, [1, 2, 3, 4]⟩
        ⟨8, [0, 0, 0, 0]⟩).trace =
      [Ev.pass_through_to_tpm 7 (u32_sub 12 (inhdrsize efi64_headers)) [1, 2, 3, 4]
        (u32_sub 8 (outhdrsize efi64_headers)) [0, 0, 0, 0]]
    ∧ u32_sub 12 (inhdrsize efi64_headers) = 12 - inhdrsize efi64_headers
    ∧ 12 - inhdrsize efi64_headers = 4 :=
  ⟨((execute_single_call efi64_headers (v1_platform (2 ^ 63 + 7)) ⟨12, [1, 2, 3, 4]⟩
      ⟨8, [0, 0, 0, 0]⟩ 7 1 (by decide) (Or.inl ⟨rfl, by decide⟩)).1 rfl).1,
   (execute_single_call efi64_headers (v1_platform (2 ^ 63 + 7)) ⟨12, [1, 2, 3, 4]⟩
      ⟨8, [0, 0, 0, 0]⟩ 7 1 (by decide) (Or.inl ⟨rfl, by decide⟩)).2.2.1 (by decide) (by decide),
   by decide⟩

/-- C9 (counterexample): on a V1 machine the empty description makes
`grub_tpm_log_event` ask `grub_zalloc` for 37 bytes, while the size of the
record up to its event payload (32) plus the description length (0) plus 1 is
33. -/
theorem alloc_size_counterexample :
    zalloc_sizes (grub_tpm_log_event efi64_headers (v1_platform 0) [1, 2] 2 7 []).trace = [37]
    ∧ offsetof_Event_event + ([] : List Nat).length + 1 = 33
    ∧ zalloc_sizes (grub_tpm_log_event efi64_headers (v1_platform 0) [1, 2] 2 7 []).trace
        ≠ [offsetof_Event_event + ([] : List Nat).length + 1] := by
  decide

/-- C9 (amended): for every description d without a zero byte, with a V1 TPM
located and validated, `grub_tpm_log_event` makes one allocation request, of
sizeof(Event) + length(d) + 1 bytes, where sizeof(Event) = 36 is the size of
the whole V1 record, payload placeholder and padding included: 4 bytes more
than the header size (32) + length(d) + 1. -/
theorem alloc_size_v1 (K : Headers) (P : Platform) (buf : List Nat) (size : Nat)
    (pcr : Fin 256) (d : List Nat) (tpm : Nat)
    (hloc : (grub_tpm_handle_find P).1 = some (tpm, 1))
    (hp : grub_tpm_present K P tpm = true)
    (hnul : ∀ c ∈ d, c ≠ 0) :
    zalloc_sizes (grub_tpm_log_event K P buf size pcr d).trace = [sizeof_Event + d.length + 1]
    ∧ sizeof_Event + d.length + 1 = (offsetof_Event_event + d.length + 1) + 4 := by
  have hs := strlen_description d hnul
  have hz := zalloc_sizes_find P
  refine ⟨?_, by simp [sizeof_Event, offsetof_Event_event]; omega⟩
  by_cases ha : P.zalloc_ok (sizeof_Event + grub_strlen (d ++ [0]) + 1) = true
  · rw [(log_event_v1 K P buf size pcr d tpm hloc hp ha).1, zalloc_sizes_append, hz, hs]
    simp [zalloc_sizes]
  · rw [log_event_nomem K P buf size pcr d tpm 1 hloc (Or.inl ⟨rfl, hp⟩) (by simpa using ha)]
    simp only [zalloc_sizes_append, hz, hs]
    simp [zalloc_sizes]

/-- Witness of C9 (amended): the description "test-event" on a V1 machine
gives one request of 36 + 10 + 1 bytes. -/
theorem alloc_size_v1_witness :
    zalloc_sizes (grub_tpm_log_event efi64_headers (v1_platform 0) [1, 2] 2 7 test_event).trace
      = [sizeof_Event + test_event.length + 1]
    ∧ sizeof_Event + test_event.length + 1 = 47 :=
  ⟨(alloc_size_v1 efi64_headers (v1_platform 0) [1, 2] 2 7 test_event 7
      (by decide) (by decide) (by decide)).1, by decide⟩

/-- C10 (counterexample): on a V1 machine that answers SUCCESS,
`grub_tpm_log_event` returns with the handle array and the event record
acquired and nothing released, and `grub_tpm_execute` returns with the handle
array acquired and nothing released. -/
theorem buffers_not_released_counterexample :
    acquired (grub_tpm_log_event efi64_headers (v1_platform 0) [1, 2] 2 7 test_event).trace
      = [Buf.handles Guid.tpm_guid, Buf.event_record]
    ∧ released (grub_tpm_log_event efi64_headers (v1_platform 0) [1, 2] 2 7 test_event).trace
      = []
    ∧ balanced (grub_tpm_log_event efi64_headers (v1_platform 0) [1, 2] 2 7 test_event).trace
      = false
    ∧ acquired (grub_tpm_execute efi64_headers (v1_platform 0) ⟨12, [1, 2, 3, 4]⟩
        ⟨8, [0, 0, 0, 0]⟩).trace = [Buf.handles Guid.tpm_guid]
    ∧ balanced (grub_tpm_execute efi64_headers (v1_platform 0) ⟨12, [1, 2, 3, 4]⟩
        ⟨8, [0, 0, 0, 0]⟩).trace = false := by
  decide

/-- C10 (amended): `grub_tpm_execute` and `grub_tpm_log_event` release no
buffer on any exit path: the trace of a call holds no `grub_free`, so every
handle array that `grub_efi_locate_handle` returned and every event record
that `grub_zalloc` returned is still held at return. The acquisitions of a
call are matched by releases only on the paths that acquire nothing, which
are the calls where both handle queries return NULL. -/
theorem buffers_never_released (K : Headers) (P : Platform)
    (inbuf : PassThroughToTPM_InputParamBlock) (outbuf : PassThroughToTPM_OutputParamBlock)
    (buf : List Nat) (size : Nat) (pcr : Fin 256) (description : List Nat) :
    released (grub_tpm_execute K P inbuf outbuf).trace = []
    ∧ released (grub_tpm_log_event K P buf size pcr description).trace = []
    ∧ (balanced (grub_tpm_execute K P inbuf outbuf).trace = true ↔
        P.locate_handle Guid.tpm_guid = none ∧ P.locate_handle Guid.tpm2_guid = none)
    ∧ (balanced (grub_tpm_log_event K P buf size pcr description).trace = true ↔
        P.locate_handle Guid.tpm_guid = none ∧ P.locate_handle Guid.tpm2_guid = none) := by
  obtain ⟨r1, ht1, hr1, ha1, _⟩ := execute_trace_shape K P inbuf outbuf
  obtain ⟨r2, ht2, hr2, hn2⟩ := log_event_trace_shape K P buf size pcr description
  have hrf := released_find P
  obtain ⟨haf, hnone⟩ := acquired_find P
  have e1 : released (grub_tpm_execute K P inbuf outbuf).trace = [] := by
    rw [ht1, released_append, hrf, hr1]; rfl
  have e2 : released (grub_tpm_log_event K P buf size pcr description).trace = [] := by
    rw [ht2, released_append, hrf, hr2]; rfl
  refine ⟨e1, e2, ?_, ?_⟩
  · rw [balanced_of_released_nil _ e1, ht1, acquired_append, ha1, List.append_nil]
    exact haf
  · rw [balanced_of_released_nil _ e2, ht2, acquired_append]
    constructor
    · intro h
      exact haf.1 (List.append_eq_nil.mp h).1
    · intro h
      have hf := haf.2 h
      rw [hn2 (hnone hf), hf]
      rfl

end GrubTpm
